import Mathlib

/-!
Shallow embedding of the outcome-classification core of the fluvio-command
crate (src/src/lib.rs): the CommandExt::result classifier, the
check_connectivity_error heuristic, and CommandExt::display, together with
theorems settling the spec's claims about them.

Rust byte buffers (Vec<u8>) and Rust strings (String, which is a UTF-8 byte
vector) are both modelled as lists of byte values; the exit status of
std::process::ExitStatus is modelled directly through its status.code()
view as an optional integer.
-/

deriving instance DecidableEq for Except

namespace FluvioCommand

/-- Model of a Rust byte buffer (Vec<u8>) and of a Rust String (a UTF-8
byte vector): a list of byte values. -/
abbrev Bytes := List Nat

/-- The byte sequence of an ASCII-only Lean string literal, used to embed
the ASCII string literals of the source at the byte level. -/
def asciiBytes (s : String) : Bytes := s.data.map Char.toNat

/-- std::process::Output: the captured result of a finished child process.
The field statusCode models output.status.code(): some code when the
process exited with a code, none when it was terminated by a signal. -/
structure Output where
  statusCode : Option Int
  stdout : Bytes
  stderr : Bytes
  deriving DecidableEq

/-- An OS-level std::io::Error produced when the child process could not be
launched or awaited, carried opaquely by its message. -/
structure OsError where
  message : String
  deriving DecidableEq

/-- CommandConnectivityError, src/src/lib.rs lines 201-204: a single Error
variant carrying a Rust String payload. -/
inductive CommandConnectivityError where
  | Error (s : Bytes)
  deriving DecidableEq

/-- CommandErrorKind, src/src/lib.rs lines 26-45. -/
inductive CommandErrorKind where
  | Terminated
  | ExitError (code : Int) (output : Output)
  | IoError (e : OsError)
  | ConnectivityError (e : CommandConnectivityError)
  deriving DecidableEq

/-- CommandError, src/src/lib.rs lines 16-23. -/
structure CommandError where
  command : String
  source : CommandErrorKind
  deriving DecidableEq

/-- A decidable test for a UTF-8 continuation byte (0x80..=0xBF). -/
def isCont (c : Nat) : Bool := decide (0x80 ≤ c ∧ c ≤ 0xBF)

/-- Whether the second byte c of a three-byte UTF-8 sequence headed by b is
admissible, following core::str::validations::run_utf8_validation. -/
def valid3Second (b c : Nat) : Bool :=
  (decide (b = 0xE0) && decide (0xA0 ≤ c ∧ c ≤ 0xBF)) ||
  (decide (0xE1 ≤ b ∧ b ≤ 0xEC) && isCont c) ||
  (decide (b = 0xED) && decide (0x80 ≤ c ∧ c ≤ 0x9F)) ||
  (decide (0xEE ≤ b ∧ b ≤ 0xEF) && isCont c)

/-- Whether the second byte c of a four-byte UTF-8 sequence headed by b is
admissible, following core::str::validations::run_utf8_validation. -/
def valid4Second (b c : Nat) : Bool :=
  (decide (b = 0xF0) && decide (0x90 ≤ c ∧ c ≤ 0xBF)) ||
  (decide (0xF1 ≤ b ∧ b ≤ 0xF3) && isCont c) ||
  (decide (b = 0xF4) && decide (0x80 ≤ c ∧ c ≤ 0x8F))

/-- core::str::Utf8Error: the position data of a UTF-8 decode failure.
validUpTo is the index of the first byte of the offending sequence;
errorLen is the length of the malformed fragment, or none when the input
ended in the middle of a sequence. -/
structure Utf8Error where
  validUpTo : Nat
  errorLen : Option Nat
  deriving DecidableEq

/-- core::str::validations::run_utf8_validation, the validator behind
String::from_utf8: scans the bytes, i being the index of the head of the
list within the whole input, and reports the first malformed sequence. -/
def utf8Validate : List Nat → Nat → Except Utf8Error Unit
  | [], _ => .ok ()
  | b :: rest, i =>
    if b < 0x80 then utf8Validate rest (i + 1)
    else if 0xC2 ≤ b ∧ b ≤ 0xDF then
      match rest with
      | [] => .error ⟨i, none⟩
      | c :: rest2 =>
        if isCont c then utf8Validate rest2 (i + 2)
        else .error ⟨i, some 1⟩
    else if 0xE0 ≤ b ∧ b ≤ 0xEF then
      match rest with
      | [] => .error ⟨i, none⟩
      | c :: rest2 =>
        if valid3Second b c then
          match rest2 with
          | [] => .error ⟨i, none⟩
          | d :: rest3 =>
            if isCont d then utf8Validate rest3 (i + 3)
            else .error ⟨i, some 2⟩
        else .error ⟨i, some 1⟩
    else if 0xF0 ≤ b ∧ b ≤ 0xF4 then
      match rest with
      | [] => .error ⟨i, none⟩
      | c :: rest2 =>
        if valid4Second b c then
          match rest2 with
          | [] => .error ⟨i, none⟩
          | d :: rest3 =>
            if isCont d then
              match rest3 with
              | [] => .error ⟨i, none⟩
              | e :: rest4 =>
                if isCont e then utf8Validate rest4 (i + 4)
                else .error ⟨i, some 3⟩
            else .error ⟨i, some 2⟩
        else .error ⟨i, some 1⟩
    else .error ⟨i, some 1⟩

/-- String::from_utf8: validates the bytes and, on success, returns the
very same bytes as the resulting Rust String (a Rust String is its UTF-8
byte vector, so the decoded text is byte-for-byte the input). -/
def string_from_utf8 (bytes : Bytes) : Except Utf8Error Bytes :=
  match utf8Validate bytes 0 with
  | .ok _ => .ok bytes
  | .error e => .error e

/-- The Display rendering of core::str::Utf8Error (which FromUtf8Error's
Display and hence its to_string delegate to), as a Rust String. -/
def utf8ErrorMessage (e : Utf8Error) : Bytes :=
  match e.errorLen with
  | some n =>
    asciiBytes ("invalid utf-8 sequence of " ++ toString n ++
      " bytes from index " ++ toString e.validUpTo)
  | none =>
    asciiBytes ("incomplete utf-8 byte sequence from index " ++
      toString e.validUpTo)

/-- Whether pat occurs at the head of l. -/
def bytesStartsWith : Bytes → Bytes → Bool
  | _, [] => true
  | [], _ :: _ => false
  | a :: as', b :: bs => a == b && bytesStartsWith as' bs

/-- Whether pat occurs contiguously anywhere in l: str::contains for an
ASCII pattern is exactly byte-level substring search. -/
def bytesContains : Bytes → Bytes → Bool
  | [], pat => pat.isEmpty
  | a :: rest, pat => bytesStartsWith (a :: rest) pat || bytesContains rest pat

/-- The bytes of the string literal of src/src/lib.rs line 210. -/
def connectivityBytes : Bytes := asciiBytes "Kubernetes cluster unreachable"

/-- check_connectivity_error, src/src/lib.rs lines 206-217: on a non-empty
stderr, decode it as UTF-8 (a decode failure becomes
CommandConnectivityError::Error of the decode error's to_string); if the
decoded text contains the connectivity substring, fail with the full text;
otherwise, and for empty stderr, succeed. -/
def check_connectivity_error (stderr : Bytes) :
    Except CommandConnectivityError Unit :=
  if stderr.isEmpty then .ok ()
  else
    match string_from_utf8 stderr with
    | .error e => .error (.Error (utf8ErrorMessage e))
    | .ok stderr_str =>
      if bytesContains stderr_str connectivityBytes then
        .error (.Error stderr_str)
      else .ok ()

/-- CommandExt::result, src/src/lib.rs lines 160-198, as a function of the
command's display string and of what self.output() produced (an OS error
or a captured Output). The inner match mirrors the source's match on
output.status.code(): the arms Some(0i32), None, Some(code) are rendered
as the none arm plus an exit-code test inside the some arm. -/
def result (disp : String) (r : Except OsError Output) :
    Except CommandError Output :=
  match r with
  | .error e => .error { command := disp, source := .IoError e }
  | .ok output =>
    match output.statusCode with
    | none => .error { command := disp, source := .Terminated }
    | some code =>
      if code = 0 then .ok output
      else
        match check_connectivity_error output.stderr with
        | .error helm_error =>
          .error { command := disp, source := .ConnectivityError helm_error }
        | .ok _ =>
          .error { command := disp, source := .ExitError code output }

/-- The double-quote character, byte value 34. -/
def dq : Char := Char.ofNat 34

/-- The Debug rendering of std::process::Command for a program and its
argument list: each piece wrapped in double quotes, joined by spaces. -/
def debugFormat (program : String) (args : List String) : String :=
  String.intercalate " "
    ((program :: args).map (fun a => String.mk (dq :: a.data ++ [dq])))

/-- CommandExt::display, src/src/lib.rs lines 148-150: the Debug rendering
with every double-quote character removed (the source's
.replace of the one-character quote string by the empty string). -/
def display (program : String) (args : List String) : String :=
  String.mk ((debugFormat program args).data.filter (fun c => c ≠ dq))

/-! Helper lemmas about the connectivity heuristic and the classifier. -/

/-- On stderr bytes that validate as UTF-8 and do not contain the
connectivity substring, the heuristic reports not-matched. -/
theorem check_conn_ok (stderr : Bytes)
    (hvalid : utf8Validate stderr 0 = .ok ())
    (hnosub : bytesContains stderr connectivityBytes = false) :
    check_connectivity_error stderr = .ok () := by
  simp only [check_connectivity_error, string_from_utf8, hvalid]
  split
  · rfl
  · simp [hnosub]

/-- On stderr bytes that validate as UTF-8 and contain the connectivity
substring, the heuristic reports matched, carrying the full text. -/
theorem check_conn_match (stderr : Bytes)
    (hvalid : utf8Validate stderr 0 = .ok ())
    (hsub : bytesContains stderr connectivityBytes = true) :
    check_connectivity_error stderr = .error (.Error stderr) := by
  have hne : stderr.isEmpty = false := by
    cases stderr with
    | nil => exact absurd hsub (by decide)
    | cons a t => rfl
  simp only [check_connectivity_error, string_from_utf8, hvalid, hne]
  simp [hsub]

/-- On non-empty stderr bytes that fail UTF-8 validation, the heuristic
fails with the decode error's rendered message. -/
theorem check_conn_decode (stderr : Bytes) (e : Utf8Error)
    (hne : stderr ≠ [])
    (hinv : utf8Validate stderr 0 = .error e) :
    check_connectivity_error stderr = .error (.Error (utf8ErrorMessage e)) := by
  have h : stderr.isEmpty = false := by
    cases stderr with
    | nil => exact absurd rfl hne
    | cons a t => rfl
  simp only [check_connectivity_error, string_from_utf8, hinv, h]
  rfl

/-- Every error value produced by the classifier carries in its command
field the display string the classifier was given. -/
theorem result_command_eq (disp : String) (r : Except OsError Output)
    (e : CommandError) (h : result disp r = .error e) :
    e.command = disp := by
  cases r with
  | error err =>
    simp only [result, Except.error.injEq] at h
    rw [← h]
  | ok output =>
    simp only [result] at h
    cases hc : output.statusCode with
    | none =>
      rw [hc] at h
      simp only [Except.error.injEq] at h
      rw [← h]
    | some code =>
      simp only [hc] at h
      by_cases h0 : code = 0
      · rw [if_pos h0] at h
        exact absurd h (by simp)
      · rw [if_neg h0] at h
        cases hcc : check_connectivity_error output.stderr with
        | error ce =>
          rw [hcc] at h
          simp only [Except.error.injEq] at h
          rw [← h]
        | ok u =>
          rw [hcc] at h
          simp only [Except.error.injEq] at h
          rw [← h]

/-! Theorems settling the claims. -/

/-- C1, counterexample: a process exiting with nonzero code 1 whose stderr
bytes are the single byte 255 — bytes that do not contain the connectivity
substring — does not yield an ExitError with that code and output, as the
claim states; it yields a ConnectivityError carrying the decode error's
message. -/
theorem C1_counterexample :
    bytesContains [255] connectivityBytes = false ∧
    result "cmd" (.ok ⟨some 1, [], [255]⟩) =
      .error ⟨"cmd", .ConnectivityError (.Error (utf8ErrorMessage ⟨0, some 1⟩))⟩ ∧
    result "cmd" (.ok ⟨some 1, [], [255]⟩) ≠
      .error ⟨"cmd", .ExitError 1 ⟨some 1, [], [255]⟩⟩ := by
  decide

/-- C1, amended: for every invocation whose process runs and exits with a
nonzero code, where the captured stderr bytes are valid UTF-8 (the empty
stderr is valid) and do not contain the substring of connectivityBytes,
result returns a CommandError whose kind is ExitError carrying exactly
that numeric exit code and the full captured Output. -/
theorem C1_exit_error (disp : String) (out : Output) (code : Int)
    (hcode : out.statusCode = some code) (hnz : code ≠ 0)
    (hvalid : utf8Validate out.stderr 0 = .ok ())
    (hnosub : bytesContains out.stderr connectivityBytes = false) :
    result disp (.ok out) = .error ⟨disp, .ExitError code out⟩ := by
  have hcc := check_conn_ok out.stderr hvalid hnosub
  simp only [result, hcode]
  rw [if_neg hnz, hcc]

/-- C1, witness: the amended theorem applied to exit code 2 with a plain
ASCII stderr. -/
theorem C1_exit_error_witness :
    result "ls does-not-exist"
        (.ok ⟨some 2, [], asciiBytes "no such file or directory"⟩) =
      .error ⟨"ls does-not-exist",
        .ExitError 2 ⟨some 2, [], asciiBytes "no such file or directory"⟩⟩ :=
  C1_exit_error "ls does-not-exist"
    ⟨some 2, [], asciiBytes "no such file or directory"⟩ 2
    rfl (by decide) (by decide) (by decide)

/-- C2: for every invocation exiting with a nonzero code whose stderr
decodes as UTF-8 text containing the connectivity substring, result
returns a ConnectivityError carrying the full decoded stderr text, and it
never returns an ExitError, whatever the nonzero code's value. -/
theorem C2_connectivity (disp : String) (out : Output) (code : Int)
    (hcode : out.statusCode = some code) (hnz : code ≠ 0)
    (hvalid : utf8Validate out.stderr 0 = .ok ())
    (hsub : bytesContains out.stderr connectivityBytes = true) :
    result disp (.ok out) =
      .error ⟨disp, .ConnectivityError (.Error out.stderr)⟩ ∧
    ∀ (c : Int) (o : Output),
      result disp (.ok out) ≠ .error ⟨disp, .ExitError c o⟩ := by
  have hcc := check_conn_match out.stderr hvalid hsub
  have h : result disp (.ok out) =
      .error ⟨disp, .ConnectivityError (.Error out.stderr)⟩ := by
    simp only [result, hcode]
    rw [if_neg hnz, hcc]
  refine ⟨h, fun c o hEq => ?_⟩
  rw [h] at hEq
  simp at hEq

/-- C2, witness: exit code 1 with stderr exactly the connectivity
substring. -/
theorem C2_connectivity_witness :
    result "helm install" (.ok ⟨some 1, [], connectivityBytes⟩) =
      .error ⟨"helm install",
        .ConnectivityError (.Error connectivityBytes)⟩ :=
  (C2_connectivity "helm install" ⟨some 1, [], connectivityBytes⟩ 1
    rfl (by decide) (by decide) (by decide)).1

/-- C3: on non-empty stderr bytes that are not valid UTF-8 the heuristic
is total and returns a value — the decode failure surfaced as an error of
its own, never the Ok value that means the heuristic ran and found
nothing. -/
theorem C3_decode_surfaced (stderr : Bytes) (e : Utf8Error)
    (hne : stderr ≠ [])
    (hinv : utf8Validate stderr 0 = .error e) :
    check_connectivity_error stderr = .error (.Error (utf8ErrorMessage e)) ∧
    check_connectivity_error stderr ≠ .ok () := by
  have h := check_conn_decode stderr e hne hinv
  refine ⟨h, ?_⟩
  rw [h]
  simp

/-- C3, witness: the single invalid byte 255. -/
theorem C3_decode_surfaced_witness :
    check_connectivity_error [255] =
      .error (.Error (utf8ErrorMessage ⟨0, some 1⟩)) ∧
    check_connectivity_error [255] ≠ .ok () :=
  C3_decode_surfaced [255] ⟨0, some 1⟩ (by decide) (by decide)

/-- C4: for every invocation whose process exits with code 0, result
returns Ok carrying the captured Output exactly as produced, whatever was
written to stderr. -/
theorem C4_success (disp : String) (out : Output)
    (hcode : out.statusCode = some 0) :
    result disp (.ok out) = .ok out := by
  simp [result, hcode]

/-- C4, witness: exit code 0 with a non-empty stderr is still a success
carrying that very output. -/
theorem C4_success_witness :
    result "echo" (.ok ⟨some 0, asciiBytes "hi", asciiBytes "warning"⟩) =
      .ok ⟨some 0, asciiBytes "hi", asciiBytes "warning"⟩ :=
  C4_success "echo" ⟨some 0, asciiBytes "hi", asciiBytes "warning"⟩ rfl

/-- C5: for every invocation whose process fails to launch, result returns
an IoError wrapping the underlying OS error; the theorem holds with no
constraint on any Output, so the branch is taken before any exit-status
inspection or connectivity check. -/
theorem C5_io_error (disp : String) (e : OsError) :
    result disp (.error e) = .error ⟨disp, .IoError e⟩ := rfl

/-- C6: for every invocation whose process terminates without an exit
code, result returns a Terminated error; the Terminated kind has no
payload, so no captured output is carried. -/
theorem C6_terminated (disp : String) (out : Output)
    (hcode : out.statusCode = none) :
    result disp (.ok out) = .error ⟨disp, .Terminated⟩ := by
  simp [result, hcode]

/-- C6, witness: a signalled process that had written to both streams. -/
theorem C6_terminated_witness :
    result "sleep" (.ok ⟨none, [97], [98]⟩) = .error ⟨"sleep", .Terminated⟩ :=
  C6_terminated "sleep" ⟨none, [97], [98]⟩ rfl

/-- C7: for every invocation exiting with a nonzero code and empty
stderr, the heuristic reports not-matched and result returns an ExitError
carrying that code and output. -/
theorem C7_empty_stderr (disp : String) (out : Output) (code : Int)
    (hcode : out.statusCode = some code) (hnz : code ≠ 0)
    (hempty : out.stderr = []) :
    check_connectivity_error out.stderr = .ok () ∧
    result disp (.ok out) = .error ⟨disp, .ExitError code out⟩ := by
  have h1 : check_connectivity_error out.stderr = .ok () := by
    rw [hempty]
    rfl
  refine ⟨h1, ?_⟩
  simp only [result, hcode]
  rw [if_neg hnz, h1]

/-- C7, witness: exit code 2 with empty stderr. -/
theorem C7_empty_stderr_witness :
    check_connectivity_error ([] : Bytes) = .ok () ∧
    result "ls" (.ok ⟨some 2, asciiBytes "listing", []⟩) =
      .error ⟨"ls", .ExitError 2 ⟨some 2, asciiBytes "listing", []⟩⟩ :=
  C7_empty_stderr "ls" ⟨some 2, asciiBytes "listing", []⟩ 2
    rfl (by decide) rfl

/-- C8: every CommandError returned by result, whatever its kind, carries
in its command field the rendering of the program and arguments produced
by display. -/
theorem C8_command_attached (program : String) (args : List String)
    (r : Except OsError Output) (e : CommandError)
    (h : result (display program args) r = .error e) :
    e.command = display program args :=
  result_command_eq (display program args) r e h

/-- C8, witness: a launch failure of the program foobar carries the
display rendering of foobar. -/
theorem C8_command_attached_witness :
    (CommandError.mk (display "foobar" [])
        (.IoError ⟨"No such file or directory"⟩)).command
      = display "foobar" [] :=
  C8_command_attached "foobar" [] (.error ⟨"No such file or directory"⟩)
    (CommandError.mk (display "foobar" [])
      (.IoError ⟨"No such file or directory"⟩)) rfl

/-- C9: display is deterministic — two renderings of the same program and
ordered argument list are equal — the double-quote characters used
internally never survive into the rendered form, and the program echo
with arguments one and two-three renders as the unquoted string. -/
theorem C9_display_deterministic :
    (∀ (program : String) (args : List String),
      display program args = display program args) ∧
    (∀ (program : String) (args : List String),
      dq ∉ (display program args).data) ∧
    display "echo" ["one", "two three"] = "echo one two three" := by
  refine ⟨fun _ _ => rfl, ?_, rfl⟩
  intro program args h
  have h2 := (List.mem_filter.mp h).2
  simp at h2

/-- C10: for every invocation exiting with a nonzero code whose stderr is
non-empty and not valid UTF-8, result returns a ConnectivityError — the
same variant as a genuine connectivity match — whose payload is the decode
error's message, and never an ExitError. -/
theorem C10_invalid_utf8 (disp : String) (out : Output) (code : Int)
    (e : Utf8Error)
    (hcode : out.statusCode = some code) (hnz : code ≠ 0)
    (hne : out.stderr ≠ [])
    (hinv : utf8Validate out.stderr 0 = .error e) :
    result disp (.ok out) =
      .error ⟨disp, .ConnectivityError (.Error (utf8ErrorMessage e))⟩ ∧
    ∀ (c : Int) (o : Output),
      result disp (.ok out) ≠ .error ⟨disp, .ExitError c o⟩ := by
  have hcc := check_conn_decode out.stderr e hne hinv
  have h : result disp (.ok out) =
      .error ⟨disp, .ConnectivityError (.Error (utf8ErrorMessage e))⟩ := by
    simp only [result, hcode]
    rw [if_neg hnz, hcc]
  refine ⟨h, fun c o hEq => ?_⟩
  rw [h] at hEq
  simp at hEq

/-- C10, witness: exit code 1 with stderr the single invalid byte 255. -/
theorem C10_invalid_utf8_witness :
    result "helm" (.ok ⟨some 1, [], [255]⟩) =
      .error ⟨"helm",
        .ConnectivityError (.Error (utf8ErrorMessage ⟨0, some 1⟩))⟩ :=
  (C10_invalid_utf8 "helm" ⟨some 1, [], [255]⟩ 1 ⟨0, some 1⟩
    rfl (by decide) (by decide) rfl).1

end FluvioCommand
